import Mathlib

/-!
Verification development for the SCTX texture-container decoder
(`src/SctxDecode.py`).  The Python source is shallowly embedded: byte
buffers are `List Nat` (each entry a byte value), the `BinaryReader`
cursor is an explicit `(data, pos)` state, fallible external capabilities
(zstd stream decompression, per-family block decompression) are function
parameters returning `Option`, and a Python exception escaping a function
is `Except.error` / `Option.none` as appropriate.  Source line numbers in
comments refer to `src/SctxDecode.py`.
-/

/-- Little-endian value of a byte list, as produced by
`int.from_bytes(bs, "little", signed=False)`.  The parser only ever uses
unsigned reads for values it keeps. -/
def fromLe : List Nat → Nat
  | [] => 0
  | b :: rest => b + 256 * fromLe rest

/-- State of a `BinaryReader` (a `BytesIO` subclass, source lines 16-51):
an immutable buffer plus a read position. -/
structure BR where
  data : List Nat
  pos : Nat
deriving DecidableEq

/-- `BytesIO.read(n)`: returns up to `n` bytes starting at `pos` (fewer if
fewer remain, never an error) and advances `pos` by the number of bytes
actually returned. -/
def brRead (r : BR) (n : Nat) : List Nat × BR :=
  let bs := (r.data.drop r.pos).take n
  (bs, ⟨r.data, r.pos + bs.length⟩)

/-- `BinaryReader.ReadUint` (source line 41): 4 bytes, little-endian. -/
def brReadUint (r : BR) : Nat × BR :=
  let p := brRead r 4
  (fromLe p.1, p.2)

/-- `BinaryReader.ReadUshort` (source line 35): 2 bytes, little-endian. -/
def brReadUshort (r : BR) : Nat × BR :=
  let p := brRead r 2
  (fromLe p.1, p.2)

/-- Generic prefix test on lists (used for byte-signature and substring
checks). -/
def startsL {α : Type} [DecidableEq α] : List α → List α → Bool
  | [], _ => true
  | _ :: _, [] => false
  | a :: as, b :: bs => if a = b then startsL as bs else false

/-- Python's `needle in hay` substring containment, on lists. -/
def containsL {α : Type} [DecidableEq α] (needle : List α) : List α → Bool
  | [] => needle.isEmpty
  | b :: bs => startsL needle (b :: bs) || containsL needle bs

/-- Decimal digit character for `d < 10` (how Python renders one digit of
an `int` in an f-string). -/
def digitChar (d : Nat) : Char := Char.ofNat (48 + d)

/-- Fuel-driven decimal rendering helper. -/
def natDigitsAux : Nat → Nat → List Char
  | 0, _ => []
  | fuel + 1, n =>
    if n < 10 then [digitChar n]
    else natDigitsAux fuel (n / 10) ++ [digitChar (n % 10)]

/-- Decimal rendering of a natural number, as Python's `str(n)` /
f-string interpolation of a nonnegative `int`. -/
def natDigits (n : Nat) : List Char := natDigitsAux (n + 1) n

/-- The numeric pixel-format codes of the `ScPixel` enumeration (source
lines 54-141).  `isKnownCode` is Python's `ScPixel(code)` succeeding. -/
def knownCodes : List Nat :=
  [170, 172, 174, 176, 178, 179, 180, 181, 182, 183,
   186, 187, 188, 189, 190, 192, 193, 194, 195, 196, 197, 198, 199, 200,
   204, 205, 206, 207, 208, 210, 211, 212, 213, 214, 215, 216, 217, 218,
   263,
   280, 281, 282, 283, 284, 285, 286, 287, 288, 289, 290, 291,
   292, 293, 294, 295, 296, 297, 298, 299, 300, 301, 302, 303,
   304, 305, 306,
   307, 308, 309, 310, 311, 312, 313, 314, 315, 316, 317, 318,
   319, 320, 321, 322, 323, 324, 325, 326,
   70]

def isKnownCode (code : Nat) : Bool := decide (code ∈ knownCodes)

/-- `AstcFormatIds = list(range(186, 201)) + list(range(204, 219))`
(source lines 160, 185, 402, 444). -/
def astcIds : List Nat := List.range' 186 15 ++ List.range' 204 15

/-- Name of each `ScPixel` member (source lines 54-141); Python's
`self.PixelType.name`. -/
def scPixelName (code : Nat) : String :=
  match code with
  | 170 => "EAC_R11"
  | 172 => "EAC_SIGNED_R11"
  | 174 => "EAC_RG11"
  | 176 => "EAC_SIGNED_RG11"
  | 178 => "ETC2_EAC_RGBA8"
  | 179 => "ETC2_EAC_SRGBA8"
  | 180 => "ETC2_RGB8"
  | 181 => "ETC2_SRGB8"
  | 182 => "ETC2_RGB8_PUNCHTHROUGH_ALPHA1"
  | 183 => "ETC2_SRGB8_PUNCHTHROUGH_ALPHA1"
  | 186 => "ASTC_SRGBA8_4x4"
  | 187 => "ASTC_SRGBA8_5x4"
  | 188 => "ASTC_SRGBA8_5x5"
  | 189 => "ASTC_SRGBA8_6x5"
  | 190 => "ASTC_SRGBA8_6x6"
  | 192 => "ASTC_SRGBA8_8x5"
  | 193 => "ASTC_SRGBA8_8x6"
  | 194 => "ASTC_SRGBA8_8x8"
  | 195 => "ASTC_SRGBA8_10x5"
  | 196 => "ASTC_SRGBA8_10x6"
  | 197 => "ASTC_SRGBA8_10x8"
  | 198 => "ASTC_SRGBA8_10x10"
  | 199 => "ASTC_SRGBA8_12x10"
  | 200 => "ASTC_SRGBA8_12x12"
  | 204 => "ASTC_RGBA8_4x4"
  | 205 => "ASTC_RGBA8_5x4"
  | 206 => "ASTC_RGBA8_5x5"
  | 207 => "ASTC_RGBA8_6x5"
  | 208 => "ASTC_RGBA8_6x6"
  | 210 => "ASTC_RGBA8_8x5"
  | 211 => "ASTC_RGBA8_8x6"
  | 212 => "ASTC_RGBA8_8x8"
  | 213 => "ASTC_RGBA8_10x5"
  | 214 => "ASTC_RGBA8_10x6"
  | 215 => "ASTC_RGBA8_10x8"
  | 216 => "ASTC_RGBA8_10x10"
  | 217 => "ASTC_RGBA8_12x10"
  | 218 => "ASTC_RGBA8_12x12"
  | 263 => "ETC1_RGB8"
  | 280 => "R8"
  | 281 => "R8_SIGNED"
  | 282 => "R16"
  | 283 => "R16_SIGNED"
  | 284 => "R16F"
  | 285 => "R32F"
  | 286 => "RG8"
  | 287 => "RG8_SIGNED"
  | 288 => "RG16"
  | 289 => "RG16_SIGNED"
  | 290 => "RG16F"
  | 291 => "RG32F"
  | 292 => "RGB8"
  | 293 => "RGB8_SIGNED"
  | 294 => "RGB16"
  | 295 => "RGB16_SIGNED"
  | 296 => "RGB16F"
  | 297 => "RGB32F"
  | 298 => "RGBA8"
  | 299 => "RGBA8_SIGNED"
  | 300 => "RGBA16"
  | 301 => "RGBA16_SIGNED"
  | 302 => "RGBA16F"
  | 303 => "RGBA32F"
  | 304 => "BGR8"
  | 305 => "BGRA8"
  | 306 => "BGRA8_SRGB"
  | 307 => "PVRTC1_RGB2"
  | 308 => "PVRTC1_SRGB2"
  | 309 => "PVRTC1_RGB4"
  | 310 => "PVRTC1_SRGB4"
  | 311 => "PVRTC1_RGBA2"
  | 312 => "PVRTC1_SRGBA2"
  | 313 => "PVRTC1_RGBA4"
  | 314 => "PVRTC1_SRGBA4"
  | 315 => "PVRTC2_RGBA2"
  | 316 => "PVRTC2_SRGBA2"
  | 317 => "PVRTC2_RGBA4"
  | 318 => "PVRTC2_SRGBA4"
  | 319 => "RGBA8Unorm"
  | 320 => "RGBA8Unorm_sRGB"
  | 321 => "RGB8Unorm"
  | 322 => "RGB8Unorm_sRGB"
  | 323 => "RG8Unorm"
  | 324 => "R8Unorm"
  | 325 => "BGRA8Unorm"
  | 326 => "BGR8Unorm"
  | 70 => "RGBA8Unorm_70"
  | _ => ""

/-- The `AstcIdToName` dictionary (source lines 162-173), as an
association list preserving the source's entries. -/
def astcIdToName : List (Nat × List Char) :=
  [(186, "ASTC_SRGBA8_4x4".toList), (187, "ASTC_SRGBA8_5x4".toList),
   (188, "ASTC_SRGBA8_5x5".toList), (189, "ASTC_SRGBA8_6x5".toList),
   (190, "ASTC_SRGBA8_6x6".toList), (192, "ASTC_SRGBA8_8x5".toList),
   (193, "ASTC_SRGBA8_8x6".toList), (194, "ASTC_SRGBA8_8x8".toList),
   (195, "ASTC_SRGBA8_10x5".toList), (196, "ASTC_SRGBA8_10x6".toList),
   (197, "ASTC_SRGBA8_10x8".toList), (198, "ASTC_SRGBA8_10x10".toList),
   (199, "ASTC_SRGBA8_12x10".toList), (200, "ASTC_SRGBA8_12x12".toList),
   (204, "ASTC_RGBA8_4x4".toList), (205, "ASTC_RGBA8_5x4".toList),
   (206, "ASTC_RGBA8_5x5".toList), (207, "ASTC_RGBA8_6x5".toList),
   (208, "ASTC_RGBA8_6x6".toList), (210, "ASTC_RGBA8_8x5".toList),
   (211, "ASTC_RGBA8_8x6".toList), (212, "ASTC_RGBA8_8x8".toList),
   (213, "ASTC_RGBA8_10x5".toList), (214, "ASTC_RGBA8_10x6".toList),
   (215, "ASTC_RGBA8_10x8".toList), (216, "ASTC_RGBA8_10x10".toList),
   (217, "ASTC_RGBA8_12x10".toList), (218, "ASTC_RGBA8_12x12".toList)]

/-- `AstcIdToName.get(self.PixelType, f"ASTC_UNKNOWN_{self.PixelType}")`
(source line 174): dictionary lookup with the `ASTC_UNKNOWN_<code>`
default, used for a raw (non-enum) code inside the ASTC id bands. -/
def astcIdName (code : Nat) : List Char :=
  match astcIdToName.find? (fun p => p.1 = code) with
  | some p => p.2
  | none => "ASTC_UNKNOWN_".toList ++ natDigits code

/-- `Texture.GetFormatName` (source lines 154-178), as a function of the
two fields it reads: whether `self.PixelType` is an `ScPixel` member
(`known`) and the raw numeric code.  The construction sites (see
`mkTexture`) guarantee `known = isKnownCode code`. -/
def formatNameP (known : Bool) (code : Nat) : List Char :=
  if known then
    if code = 70 then "RGBA8Unorm".toList else (scPixelName code).toList
  else if decide (code ∈ astcIds) then astcIdName code
  else if code = 70 then "RGBA8Unorm".toList
  else "UNKNOWN (".toList ++ natDigits code ++ ")".toList

/-- `Texture.IsAstc` (source lines 180-189): name contains `"ASTC"`, or
the raw code lies in the ASTC id bands. -/
def isAstcP (known : Bool) (code : Nat) : Bool :=
  containsL "ASTC".toList (formatNameP known code) || decide (code ∈ astcIds)

/-- `Texture.IsEtc` (source lines 236-238). -/
def isEtcP (known : Bool) (code : Nat) : Bool :=
  containsL "ETC".toList (formatNameP known code) ||
    containsL "EAC".toList (formatNameP known code)

/-- `Texture.IsSrgb` (source lines 240-242). -/
def isSrgbP (known : Bool) (code : Nat) : Bool :=
  containsL "SRGB".toList (formatNameP known code) ||
    containsL "SRGBA".toList (formatNameP known code) ||
    containsL "sRGB".toList (formatNameP known code)

/-- `Texture.IsPvrtc` (source lines 244-246). -/
def isPvrtcP (known : Bool) (code : Nat) : Bool :=
  containsL "PVRTC".toList (formatNameP known code)

/-- The `UncompressedFormats` name list (source lines 250-253). -/
def uncompressedNeedles : List (List Char) :=
  ["R8".toList, "R16".toList, "R16F".toList, "R32F".toList, "RG8".toList,
   "RG16".toList, "RG16F".toList, "RG32F".toList, "RGB8".toList,
   "RGB16".toList, "RGB16F".toList, "RGB32F".toList, "RGBA8".toList,
   "RGBA16".toList, "RGBA16F".toList, "RGBA32F".toList, "BGR8".toList,
   "BGRA8".toList, "RGBA8Unorm".toList, "RGB8Unorm".toList,
   "RG8Unorm".toList, "R8Unorm".toList, "BGRA8Unorm".toList,
   "BGR8Unorm".toList]

/-- `Texture.IsUncompressed` (source lines 248-258). -/
def isUncompressedP (known : Bool) (code : Nat) : Bool :=
  if isAstcP known code || isEtcP known code || isPvrtcP known code then false
  else uncompressedNeedles.any
    (fun needle => containsL needle (formatNameP known code))

/-- The `Texture` entity (source lines 144-152).  `pixelType` holds the
raw numeric code; `known` records whether Python stored an `ScPixel`
member (lookup succeeded) or a raw `int` (lookup raised `ValueError`). -/
structure Texture where
  width : Nat
  height : Nat
  dataLength : Nat
  data : Option (List Nat)
  pixelType : Nat
  known : Bool
deriving DecidableEq

/-- Construction of a `Texture` from a numeric code, width and height.
All construction sites in the source (lines 403-416, 444-456) perform
`try: ScPixel(code) except ValueError: raw int` (the explicit
`code == 70` branches construct `ScPixel.RGBA8Unorm_70`, which is the
same successful lookup), so `known = isKnownCode code` and construction
never raises. -/
def mkTexture (code width height : Nat) : Texture :=
  ⟨width, height, 0, none, code, isKnownCode code⟩

def Texture.name (t : Texture) : List Char := formatNameP t.known t.pixelType

def isAstcT (t : Texture) : Bool := isAstcP t.known t.pixelType

def isEtcT (t : Texture) : Bool := isEtcP t.known t.pixelType

def isSrgbT (t : Texture) : Bool := isSrgbP t.known t.pixelType

def isPvrtcT (t : Texture) : Bool := isPvrtcP t.known t.pixelType

def isUncompressedT (t : Texture) : Bool := isUncompressedP t.known t.pixelType

/-- The ordered `AstcBlockSizes` pattern table (source lines 267-272);
Python dicts preserve insertion order and the loop takes the first
pattern that occurs in the format name. -/
def astcBlockSizes : List (List Char × Nat × Nat) :=
  [("4x4".toList, 4, 4), ("5x4".toList, 5, 4), ("5x5".toList, 5, 5),
   ("6x5".toList, 6, 5), ("6x6".toList, 6, 6), ("8x5".toList, 8, 5),
   ("8x6".toList, 8, 6), ("8x8".toList, 8, 8), ("10x5".toList, 10, 5),
   ("10x6".toList, 10, 6), ("10x8".toList, 10, 8),
   ("10x10".toList, 10, 10), ("12x10".toList, 12, 10),
   ("12x12".toList, 12, 12)]

/-- First ASTC block pattern occurring in a format name (the `for` loop
of source lines 274-278). -/
def astcBlockOfName (name : List Char) : Option (Nat × Nat) :=
  astcBlockSizes.foldr
    (fun p acc => if containsL p.1 name then some (p.2.1, p.2.2) else acc)
    none

/-- Shape of the expected-size formula selected by the classification
chain of `Texture.CalculateExpectedSize`; depends only on the format
(never on the dimensions). -/
inductive SizeKind where
  | block : Nat → Nat → Nat → SizeKind
  | linear : Nat → SizeKind
  | zero : SizeKind
deriving DecidableEq

/-- Classification chain of `Texture.CalculateExpectedSize` (source lines
264-298): ASTC uses the matched block footprint at 16 bytes/block (or
falls to 0 when no pattern matches); ETC/EAC uses 4x4 blocks at 16
bytes/block when the name contains `"RGBA"` and 8 otherwise; uncompressed
formats multiply by a channel count read off the name; everything else
yields 0. -/
def sizeClassP (known : Bool) (code : Nat) : SizeKind :=
  let name := formatNameP known code
  if isAstcP known code then
    match astcBlockOfName name with
    | some (bw, bh) => SizeKind.block bw bh 16
    | none => SizeKind.zero
  else if isEtcP known code then
    if containsL "RGBA".toList name then SizeKind.block 4 4 16
    else SizeKind.block 4 4 8
  else if isUncompressedP known code then
    if containsL "RGBA".toList name || containsL "BGRA".toList name then
      SizeKind.linear 4
    else if containsL "RGB".toList name || containsL "BGR".toList name then
      SizeKind.linear 3
    else if containsL "RG".toList name then SizeKind.linear 2
    else if containsL "R".toList name then SizeKind.linear 1
    else SizeKind.zero
  else SizeKind.zero

/-- `Texture.CalculateExpectedSize` (source lines 260-298).  Block counts
round up: `(w + bw - 1) // bw` in the source. -/
def calculateExpectedSize (t : Texture) : Nat :=
  if t.width = 0 ∨ t.height = 0 then 0
  else
    match sizeClassP t.known t.pixelType with
    | SizeKind.block bw bh bpb =>
      ((t.width + bw - 1) / bw) * ((t.height + bh - 1) / bh) * bpb
    | SizeKind.linear c => t.width * t.height * c
    | SizeKind.zero => 0

/-- The four-byte Zstandard frame magic `b'\x28\xb5\x2f\xfd'` (source
lines 199, 356). -/
def zstdMagic : List Nat := [0x28, 0xb5, 0x2f, 0xfd]

/-- The external stream-decompression capability
(`zstandard.ZstdDecompressor().decompress(data, max_output_size=...)`).
The second argument models the `max_output_size` keyword: `none` when the
call site passes no ceiling.  A `none` result models the call raising. -/
structure ZstdCap where
  decompress : List Nat → Option Nat → Option (List Nat)

/-- A capability under which every decompression attempt fails (no input
is a valid Zstandard stream). -/
def zcNone : ZstdCap := ⟨fun _ _ => none⟩

/-- `Texture.IsCompressedData` (source lines 191-213), without the
memoized flag (the probe is pure here): data of fewer than 4 bytes is
uncompressed; a leading zstd magic means compressed; otherwise a trial
decompression of the first up-to-100 bytes into a 1000-byte ceiling
decides. -/
def isCompressedData (zc : ZstdCap) (t : Texture) : Bool :=
  match t.data with
  | none => false
  | some d =>
    if d.length < 4 then false
    else if d.take 4 = zstdMagic then true
    else (zc.decompress (d.take 100) (some 1000)).isSome

/-- The ceiling passed by `Texture.DecompressData` (source lines
225-227): three times the expected size, or 100 MiB when that estimate
is 0. -/
def decompressBudget (t : Texture) : Nat :=
  if calculateExpectedSize t * 3 = 0 then 104857600
  else calculateExpectedSize t * 3

/-- `Texture.DecompressData` (source lines 215-234), without
memoization: uncompressed data is returned as-is; compressed data is
decompressed under `decompressBudget`; a failure falls back to the
original bytes. -/
def decompressData (zc : ZstdCap) (t : Texture) : List Nat :=
  let d := t.data.getD []
  if isCompressedData zc t then
    match zc.decompress d (some (decompressBudget t)) with
    | some out => out
    | none => d
  else d

/-- Output channel-order tag of the decode dispatcher: `'RGBA'` (4
bytes/pixel, B,G,R,A order) or `'RGB'` (3 bytes/pixel, R,G,B order). -/
inductive PixMode where
  | rgba
  | rgb
deriving DecidableEq

/-- The per-pixel reorder loop
`for I in range(0, len(X), 4): R, G, B, A = X[I:I+4]; out += [B, G, R, A]`
used throughout `DecodeTexture`.  A trailing chunk of fewer than 4 bytes
makes the Python tuple unpacking raise (caught by the dispatcher's
`except`), modelled as `none`. -/
def bgraSwap4 : List Nat → Option (List Nat)
  | [] => some []
  | r :: g :: b :: a :: rest =>
    (bgraSwap4 rest).map (fun t => b :: g :: r :: a :: t)
  | _ => none

/-- The identity copy loop over 3-byte pixels (source lines 588-592);
raises (`none`) when the length is not a multiple of 3. -/
def rgbCopy3 : List Nat → Option (List Nat)
  | [] => some []
  | r :: g :: b :: rest => (rgbCopy3 rest).map (fun t => r :: g :: b :: t)
  | _ => none

/-- The B,G,R to R,G,B reorder loop over 3-byte pixels (source lines
594-598). -/
def bgrSwap3 : List Nat → Option (List Nat)
  | [] => some []
  | b :: g :: r :: rest => (bgrSwap3 rest).map (fun t => r :: g :: b :: t)
  | _ => none

/-- The 2-channel to 3-channel expansion loop (source lines 600-604). -/
def rgExpand2 : List Nat → Option (List Nat)
  | [] => some []
  | r :: g :: rest => (rgExpand2 rest).map (fun t => r :: g :: 0 :: t)
  | _ => none

/-- Single-channel broadcast `for R in data: out += [R, R, R]` (source
lines 606-609); total. -/
def rBroadcast : List Nat → List Nat
  | [] => []
  | r :: rest => r :: r :: r :: rBroadcast rest

/-- EAC mono broadcast `for Intensity in MonoData: out += [I, I, I, 255]`
(source lines 559-562); total. -/
def monoBroadcast : List Nat → List Nat
  | [] => []
  | i :: rest => i :: i :: i :: 255 :: monoBroadcast rest

/-- EAC dual-channel loop `for I in range(0, len, 2): R, G = data[I:I+2];
out += [0, G, R, 255]` (source lines 564-569). -/
def eacRgLoop : List Nat → Option (List Nat)
  | [] => some []
  | r :: g :: rest => (eacRgLoop rest).map (fun t => 0 :: g :: r :: 255 :: t)
  | _ => none

/-- Python's `range(0, len, step)` index list (`step > 0` at all call
sites). -/
def pyRange (len step : Nat) : List Nat :=
  if step = 0 then []
  else (List.range ((len + step - 1) / step)).map (fun k => k * step)

/-- The half/float sampling loops (source lines 610-642): at each stride
start `I` the loop indexes `data[I + off]` for each channel offset;
an out-of-range index raises (`none`, caught by the dispatcher). -/
def floatSample (d : List Nat) (step : Nat) (offs : List Nat) :
    Option (List Nat) :=
  (pyRange d.length step).foldr
    (fun i acc =>
      match acc with
      | none => none
      | some rest =>
        match offs.mapM (fun o => d.get? (i + o)) with
        | none => none
        | some px => some (px ++ rest))
    (some [])

/-- Maximal leading run of decimal digits of a character list. -/
def takeDigits : List Char → List Char × List Char
  | [] => ([], [])
  | c :: t =>
    if c.isDigit then
      let p := takeDigits t
      (c :: p.1, p.2)
    else ([], c :: t)

/-- Numeric value of a digit run (`int(...)` on the captured group). -/
def digitsVal (l : List Char) : Nat :=
  l.foldl (fun a c => a * 10 + (c.toNat - 48)) 0

/-- Attempt to match the regular expression `(\d+)x(\d+)` anchored at the
start of `cs` (greedy digit runs; the separator `'x'` is not a digit, so
greedy matching is exact). -/
def matchBlockAt (cs : List Char) : Option (Nat × Nat) :=
  let p := takeDigits cs
  if p.1.isEmpty then none
  else
    match p.2 with
    | c :: rest =>
      if c = 'x' then
        let q := takeDigits rest
        if q.1.isEmpty then none else some (digitsVal p.1, digitsVal q.1)
      else none
    | [] => none

/-- `re.search(r'(\d+)x(\d+)', FormatName)` (source lines 523-527):
leftmost match of a block-footprint pattern in the format name. -/
def regexBlockSearch : List Char → Option (Nat × Nat)
  | [] => none
  | c :: t =>
    match matchBlockAt (c :: t) with
    | some p => some p
    | none => regexBlockSearch t

/-- The external `texture2ddecoder` block-decompression capability, one
entry point per compressed family (source lines 528, 537, 544, 551, 558,
564, 646).  A `none` result models the call raising (caught by the
dispatcher's `except` and turned into a failed decode). -/
structure DecoderCap where
  astc : List Nat → Nat → Nat → Nat → Nat → Option (List Nat)
  etc1 : List Nat → Nat → Nat → Option (List Nat)
  etc2 : List Nat → Nat → Nat → Option (List Nat)
  etc2a1 : List Nat → Nat → Nat → Option (List Nat)
  eacr : List Nat → Nat → Nat → Bool → Option (List Nat)
  eacrg : List Nat → Nat → Nat → Bool → Option (List Nat)
  pvrtc : List Nat → Nat → Nat → Bool → Option (List Nat)

/-- A capability under which every block decode raises. -/
def dcNone : DecoderCap :=
  ⟨fun _ _ _ _ _ => none, fun _ _ _ => none, fun _ _ _ => none,
   fun _ _ _ => none, fun _ _ _ _ => none, fun _ _ _ _ => none,
   fun _ _ _ _ => none⟩

/-- `Is2Bpp = "2" in FormatName` (source line 645): the bits-per-pixel
flag handed to the PVRTC block decoder. -/
def pvrtcIs2Bpp (t : Texture) : Bool := containsL "2".toList t.name

/-- The format-family dispatch of `SCTX.DecodeTexture` (source lines
521-654), applied to the already-selected texture data `td`.  Every
branch mirrors the source's substring chain; a capability failure, a
ragged reorder chunk, or a fallen-through format yields `none` (the
source logs and returns `(None, None)`). -/
def dispatchDecode (dc : DecoderCap) (t : Texture) (td : List Nat) :
    Option (List Nat × PixMode) :=
  let name := t.name
  if isAstcT t then
    -- lines 522-533; no regex match falls through to the final failure
    match regexBlockSearch name with
    | some (bw, bh) =>
      match dc.astc td t.width t.height bw bh with
      | some rgba => (bgraSwap4 rgba).map (fun o => (o, PixMode.rgba))
      | none => none
    | none => none
  else if isEtcT t then
    -- lines 535-569
    if containsL "ETC1".toList name || containsL "ETC2_RGB8".toList name ||
        containsL "ETC2_SRGB8".toList name then
      match dc.etc1 td t.width t.height with
      | some rgba => (bgraSwap4 rgba).map (fun o => (o, PixMode.rgba))
      | none => none
    else if containsL "ETC2_EAC_RGBA8".toList name ||
        containsL "ETC2_EAC_SRGBA8".toList name then
      match dc.etc2 td t.width t.height with
      | some rgba => (bgraSwap4 rgba).map (fun o => (o, PixMode.rgba))
      | none => none
    else if containsL "ETC2_RGB8_PUNCHTHROUGH_ALPHA1".toList name ||
        containsL "ETC2_SRGB8_PUNCHTHROUGH_ALPHA1".toList name then
      match dc.etc2a1 td t.width t.height with
      | some rgba => (bgraSwap4 rgba).map (fun o => (o, PixMode.rgba))
      | none => none
    else if containsL "EAC_R11".toList name ||
        containsL "EAC_SIGNED_R11".toList name then
      match dc.eacr td t.width t.height (containsL "SIGNED".toList name) with
      | some mono => some (monoBroadcast mono, PixMode.rgba)
      | none => none
    else if containsL "EAC_RG11".toList name ||
        containsL "EAC_SIGNED_RG11".toList name then
      match dc.eacrg td t.width t.height (containsL "SIGNED".toList name) with
      | some rg => (eacRgLoop rg).map (fun o => (o, PixMode.rgba))
      | none => none
    else none
  else if isUncompressedT t then
    -- lines 571-642
    if containsL "RGBA8Unorm".toList name then
      -- line 573-576: "RGBA8Unorm: treating as BGRA (no conversion)"
      some (td, PixMode.rgba)
    else if containsL "RGBA8".toList name &&
        !containsL "Unorm".toList name then
      (bgraSwap4 td).map (fun o => (o, PixMode.rgba))
    else if containsL "BGRA8".toList name then
      some (td, PixMode.rgba)
    else if containsL "RGB8".toList name then
      (rgbCopy3 td).map (fun o => (o, PixMode.rgb))
    else if containsL "BGR8".toList name then
      (bgrSwap3 td).map (fun o => (o, PixMode.rgb))
    else if containsL "RG8".toList name then
      (rgExpand2 td).map (fun o => (o, PixMode.rgb))
    else if containsL "R8".toList name then
      some (rBroadcast td, PixMode.rgb)
    else if containsL "R16F".toList name || containsL "R32F".toList name then
      -- lines 610-615: sample the leading byte of each stored value,
      -- broadcast it to R, G, B
      (floatSample td (if containsL "R16F".toList name then 2 else 4)
        [0]).map (fun px => (rBroadcast px, PixMode.rgb))
    else if containsL "RG16F".toList name ||
        containsL "RG32F".toList name then
      -- lines 616-623: sampled [R, G] pairs become [R, G, 0]
      (floatSample td (if containsL "RG16F".toList name then 4 else 8)
        [0, if containsL "RG16F".toList name then 2 else 4]).bind
        (fun px => (rgExpand2 px).map (fun o => (o, PixMode.rgb)))
    else if containsL "RGB16F".toList name ||
        containsL "RGB32F".toList name then
      -- lines 624-632: sampled [R, G, B] triples are emitted as-is
      (floatSample td (if containsL "RGB16F".toList name then 6 else 12)
        (if containsL "RGB16F".toList name then [0, 2, 4]
         else [0, 4, 8])).map (fun px => (px, PixMode.rgb))
    else if containsL "RGBA16F".toList name ||
        containsL "RGBA32F".toList name then
      -- lines 633-642: sampled [R, G, B, A] quadruples become [B, G, R, A]
      (floatSample td (if containsL "RGBA16F".toList name then 8 else 16)
        (if containsL "RGBA16F".toList name then [0, 2, 4, 6]
         else [0, 4, 8, 12])).bind
        (fun px => (bgraSwap4 px).map (fun o => (o, PixMode.rgba)))
    else none
  else if isPvrtcT t then
    -- lines 644-651
    match dc.pvrtc td t.width t.height (pvrtcIs2Bpp t) with
    | some rgba => (bgraSwap4 rgba).map (fun o => (o, PixMode.rgba))
    | none => none
  else none

/-- Python truthiness of an optional byte buffer (`None` and `b''` are
falsy). -/
def dataTruthy : Option (List Nat) → Bool
  | none => false
  | some d => !d.isEmpty

/-- `SCTX.DecodeTexture` (source lines 501-660): select the byte source
(explicit decompressed payload if requested and truthy, else the
texture's own data, decompressed on demand when the compression probe
fires), reject sources under 16 bytes (`InsufficientData`), then
dispatch by family.  `none` models every `(None, None)` return. -/
def decodeTexture (zc : ZstdCap) (dc : DecoderCap)
    (decompressedPayload : Option (List Nat)) (t : Texture)
    (useDecompressedPayload : Bool) : Option (List Nat × PixMode) :=
  let td? : Option (List Nat) :=
    if useDecompressedPayload && dataTruthy decompressedPayload then
      decompressedPayload
    else if dataTruthy t.data then
      some (if isCompressedData zc t then decompressData zc t
            else t.data.getD [])
    else none
  match td? with
  | none => none
  | some td => if td.length < 16 then none else dispatchDecode dc t td

/-- Result of `SCTX.FindAndDecompressPayload` (source lines 355-381),
plus an instrumentation trace of every `decompress` invocation the
locator makes, recorded as `(input, max_output_size)` pairs so the
ceiling each call passes is visible to theorems. -/
structure PayloadScan where
  compressedPayload : Option (List Nat)
  decompressedPayload : Option (List Nat)
  calls : List (List Nat × Option Nat)
deriving DecidableEq

/-- `self.OriginalFileData.find(ZstdMagic)` (source line 372): index of
the first occurrence of the 4-byte magic, `none` for Python's `-1`. -/
def findMagic : List Nat → Nat → Option Nat
  | [], _ => none
  | b :: rest, i =>
    if startsL zstdMagic (b :: rest) then some i
    else findMagic rest (i + 1)

/-- The probed offset list of the payload locator (source line 358). -/
def probeOffsets : List Nat := [0, 512, 536, 584, 768, 1024]

/-- The probed-offset loop of `FindAndDecompressPayload` (source lines
358-371): at the first offset whose 4-byte window equals the magic, set
the compressed payload to the file tail and attempt decompression with
NO output ceiling (`Dctx.decompress(self.CompressedPayload)`, line 366 —
no `max_output_size`); on success return, on failure keep looping.
After the loop, fall back to a linear scan (lines 372-381), again
decompressing with no ceiling; a failure there leaves the decompressed
payload absent. -/
def scanAux (zc : ZstdCap) (fileData : List Nat) :
    List Nat → Option (List Nat) → List (List Nat × Option Nat) →
    PayloadScan
  | [], cp, calls =>
    match findMagic fileData 0 with
    | some pos =>
      let cp2 := fileData.drop pos
      match zc.decompress cp2 none with
      | some out => ⟨some cp2, some out, calls ++ [(cp2, none)]⟩
      | none => ⟨some cp2, none, calls ++ [(cp2, none)]⟩
    | none => ⟨cp, none, calls⟩
  | off :: rest, cp, calls =>
    -- line 359: `if Offset < len(self.OriginalFileData) - 4`
    if off + 4 < fileData.length &&
        (fileData.drop off).take 4 = zstdMagic then
      let cp2 := fileData.drop off
      match zc.decompress cp2 none with
      | some out => ⟨some cp2, some out, calls ++ [(cp2, none)]⟩
      | none => scanAux zc fileData rest (some cp2) (calls ++ [(cp2, none)])
    else scanAux zc fileData rest cp calls

/-- `SCTX.FindAndDecompressPayload` (source lines 355-381). -/
def findAndDecompressPayload (zc : ZstdCap) (fileData : List Nat) :
    PayloadScan :=
  scanAux zc fileData probeOffsets none []

/-- The recoverable anomalies the parser logs as warnings (source lines
324, 333, 343). -/
inductive Warning where
  | invalidStreamingLength : Nat → Warning
  | invalidDataLength : Nat → Warning
  | textureDataExceedsFile : Nat → Warning
deriving DecidableEq

/-- The only exception the container parse can raise: dereferencing
`self.Texture` in `ReadTexture` (source line 470) when no main texture
was created. -/
inductive PyError where
  | attributeError
deriving DecidableEq

/-- The shared clamp-read pattern of the top-level parse (source lines
322-327 and 331-336): read a declared length `L`; if it exceeds the
remaining bytes, warn and clamp to the remainder; read that many bytes.
Returns the bytes, the advanced reader and whether a warning fired. -/
def clampedRead (r : BR) (len : Nat) : List Nat × BR × Bool :=
  let rem := r.data.length - r.pos
  if len > rem then
    let p := brRead r rem
    (p.1, p.2, true)
  else
    let p := brRead r len
    (p.1, p.2, false)

/-- `SCTX.ReadStreamingTexture` (source lines 432-461): parse a
streaming-texture sub-block; under 40 bytes nothing is produced. -/
def readStreamingTexture (blk : List Nat) : Option Texture :=
  if blk.length < 28 + 12 then none
  else
    let r0 : BR := ⟨blk, 0⟩
    let r1 := (brRead r0 28).2
    let pw := brReadUshort r1
    let ph := brReadUshort pw.2
    let pp := brReadUint ph.2
    let r2 := (brRead pp.2 4).2  -- Reader.ReadInt(), value unused
    let t0 := mkTexture pp.1 pw.1 ph.1
    if blk.length - r2.pos ≥ 4 then
      let pd := brReadUint r2
      let t1 := { t0 with dataLength := pd.1 }
      if pd.1 > 0 && blk.length - pd.2.pos ≥ pd.1 then
        some { t1 with data := some (brRead pd.2 pd.1).1 }
      else some t1
    else some t0

/-- Result of `SCTX.ReadStreamingData`, with `finalPos` recording the
local reader's `tell()` when the procedure returns (used to state how
many bytes of the streaming block were actually consumed). -/
structure StreamOut where
  texture : Option Texture
  streamingTexture : Option Texture
  streamingId : Option Nat
  finalPos : Nat
deriving DecidableEq

/-- `SCTX.ReadStreamingData` (source lines 383-430).  Note the header
length guard (line 389): a header length exceeding `len(Data) - 4`
RETURNS immediately — no clamping, no warning, no texture. -/
def readStreamingData (streamingTextureId : Nat) (blk : List Nat) :
    StreamOut :=
  if blk.length < 4 then ⟨none, none, none, 0⟩
  else
    let ph := brReadUint ⟨blk, 0⟩
    if ph.1 > blk.length - 4 then ⟨none, none, none, ph.2.pos⟩
    else
      let r1 := (brRead ph.2 ph.1).2  -- Reader.Skip(HeaderLength)
      if blk.length - r1.pos < 14 then ⟨none, none, none, r1.pos⟩
      else
        let pp := brReadUint r1
        let pw := brReadUshort pp.2
        let phh := brReadUshort pw.2
        let r2 := (brRead phh.2 4).2  -- Reader.ReadInt(), value unused
        let t0 := mkTexture pp.1 pw.1 phh.1
        let s1 : Texture × BR :=
          if blk.length - r2.pos ≥ 4 then
            let pd := brReadUint r2
            ({ t0 with dataLength := pd.1 }, pd.2)
          else (t0, r2)
        let t1 := s1.1
        if streamingTextureId ≠ 0 && blk.length - s1.2.pos ≥ 20 then
          let r3 := (brRead s1.2 16).2  -- Reader.Skip(16)
          let s2 : Option Texture × BR :=
            if blk.length - r3.pos ≥ 4 then
              let pl := brReadUint r3
              if pl.1 > 0 && blk.length - pl.2.pos ≥ pl.1 then
                let pb := brRead pl.2 pl.1
                (readStreamingTexture pb.1, pb.2)
              else (none, pl.2)
            else (none, r3)
          if blk.length - s2.2.pos ≥ 4 then
            let pid := brReadUint s2.2
            ⟨some t1, s2.1, some pid.1, pid.2.pos⟩
          else ⟨some t1, s2.1, none, s2.2.pos⟩
        else ⟨some t1, none, none, s1.2.pos⟩

/-- `SCTX.ReadTexture` (source lines 463-477): parse the texture-header
block into the existing main texture's width and height.  When the block
is 34 bytes or more but no main texture exists, the assignment
`self.Texture.Width = ...` (line 470) raises `AttributeError`. -/
def readTextureBlock (tex : Option Texture) (blk : List Nat) :
    Except PyError (Option Texture) :=
  if blk.length < 24 + 10 then Except.ok tex
  else
    match tex with
    | none => Except.error PyError.attributeError
    | some t =>
      let r0 : BR := ⟨blk, 0⟩
      let r1 := (brRead r0 24).2
      let pw := brReadUshort r1
      let ph := brReadUshort pw.2
      -- the trailing ReadUint and optional hash blob touch only the
      -- local reader and are otherwise unobservable
      Except.ok (some { t with width := pw.1, height := ph.1 })

/-- The `SCTX` container state after parsing (source lines 301-353). -/
structure Sctx where
  streamingTextureId : Nat
  texture : Option Texture
  streamingTexture : Option Texture
  streamingId : Option Nat
  originalFileData : List Nat
  compressedPayload : Option (List Nat)
  decompressedPayload : Option (List Nat)
  payloadCalls : List (List Nat × Option Nat)
  warnings : List Warning
deriving DecidableEq

/-- The post-parse repair (source lines 348-353): if the main texture
exists but its data is absent or under 16 bytes, and a streaming texture
with truthy data exists, substitute the streaming texture's data and
declared length into the main texture. -/
def repair (tex : Option Texture) (st : Option Texture) : Option Texture :=
  match tex with
  | none => none
  | some t =>
    if !dataTruthy t.data || (t.data.getD []).length < 16 then
      match st with
      | some s =>
        if dataTruthy s.data then
          some { t with data := s.data, dataLength := s.dataLength }
        else some t
      | none => some t
    else some t

/-- `SCTX.__init__` (source lines 301-353) minus file I/O: locate the
payload, read the streaming block (clamping its declared length with a
warning), parse it, optionally read and parse the texture-header block
(again clamped), read the main texture data (clamped with a warning on
overrun), then run the post-parse repair.  The only way this raises is
`readTextureBlock`'s `AttributeError`. -/
def sctxInit (zc : ZstdCap) (fileData : List Nat)
    (streamingIdOverride : Nat) : Except PyError Sctx :=
  let scan := findAndDecompressPayload zc fileData
  let p1 := brReadUint ⟨fileData, 0⟩
  let c1 := clampedRead p1.2 p1.1
  let so := readStreamingData streamingIdOverride c1.1
  let w1 : List Warning :=
    if c1.2.2 then [Warning.invalidStreamingLength p1.1] else []
  let afterTex : Except PyError (Option Texture × BR × List Warning) :=
    -- line 330: `if Reader.tell() < len(self.OriginalFileData) - 4`
    if c1.2.1.pos + 4 < fileData.length then
      let p2 := brReadUint c1.2.1
      let c2 := clampedRead p2.2 p2.1
      let w2 : List Warning :=
        if c2.2.2 then [Warning.invalidDataLength p2.1] else []
      match readTextureBlock so.texture c2.1 with
      | Except.error e => Except.error e
      | Except.ok tex2 =>
        match tex2 with
        | some t =>
          if t.dataLength > 0 then
            -- lines 340-346
            if c2.2.1.pos + t.dataLength ≤ fileData.length then
              let pd := brRead c2.2.1 t.dataLength
              Except.ok (some { t with data := some pd.1 }, pd.2, w2)
            else
              let rem := fileData.length - c2.2.1.pos
              if rem > 0 then
                let pd := brRead c2.2.1 rem
                Except.ok (some { t with data := some pd.1 }, pd.2,
                  w2 ++ [Warning.textureDataExceedsFile t.dataLength])
              else
                Except.ok (some t, c2.2.1,
                  w2 ++ [Warning.textureDataExceedsFile t.dataLength])
          else Except.ok (some t, c2.2.1, w2)
        | none => Except.ok (none, c2.2.1, w2)
    else Except.ok (so.texture, c1.2.1, [])
  match afterTex with
  | Except.error e => Except.error e
  | Except.ok (tex, _, w2) =>
    Except.ok
      { streamingTextureId := streamingIdOverride
        texture := repair tex so.streamingTexture
        streamingTexture := so.streamingTexture
        streamingId := so.streamingId
        originalFileData := fileData
        compressedPayload := scan.compressedPayload
        decompressedPayload := scan.decompressedPayload
        payloadCalls := scan.calls
        warnings := w1 ++ w2 }

/-- The per-file decode entry (source lines 668-694): parse, pick the
main texture (falling back to the streaming texture when absent), and
decode with `UseDecompressedPayload=False`.  A parse exception or a
missing texture yields `none`. -/
def sctxDecodeMain (zc : ZstdCap) (dc : DecoderCap) (fileData : List Nat)
    (streamingIdOverride : Nat) : Option (List Nat × PixMode) :=
  match sctxInit zc fileData streamingIdOverride with
  | Except.error _ => none
  | Except.ok s =>
    match s.texture with
    | some t => decodeTexture zc dc s.decompressedPayload t false
    | none =>
      match s.streamingTexture with
      | some t => decodeTexture zc dc s.decompressedPayload t false
      | none => none

/-! ### Supporting lemmas -/

theorem startsL_mem {α : Type} [DecidableEq α] :
    ∀ (n h : List α), startsL n h = true → ∀ c ∈ n, c ∈ h := by
  intro n
  induction n with
  | nil => intro h _ c hc; cases hc
  | cons a as ih =>
    intro h hs c hc
    cases h with
    | nil => simp [startsL] at hs
    | cons b bs =>
      simp only [startsL] at hs
      by_cases hab : a = b
      · simp [hab] at hs
        rcases List.mem_cons.mp hc with h1 | h1
        · exact List.mem_cons.mpr (Or.inl (h1.trans hab))
        · exact List.mem_cons.mpr (Or.inr (ih bs hs c h1))
      · simp [hab] at hs

theorem containsL_mem {α : Type} [DecidableEq α] :
    ∀ (n h : List α), containsL n h = true → ∀ c ∈ n, c ∈ h := by
  intro n h
  induction h with
  | nil =>
    intro hc c hcn
    simp [containsL, List.isEmpty_iff] at hc
    subst hc; cases hcn
  | cons b bs ih =>
    intro hc c hcn
    simp only [containsL, Bool.or_eq_true] at hc
    rcases hc with hc | hc
    · exact startsL_mem _ _ hc c hcn
    · exact List.mem_cons.mpr (Or.inr (ih hc c hcn))

/-- If some character of the needle never occurs in the haystack, the
substring test fails. -/
theorem containsL_eq_false_of_missing {α : Type} [DecidableEq α]
    (n h : List α) (c : α) (hcn : c ∈ n) (hch : c ∉ h) :
    containsL n h = false := by
  by_contra hne
  exact hch (containsL_mem n h (by revert hne; cases containsL n h <;> simp) c hcn)

theorem digitChar_mem (d : Nat) (hd : d < 10) :
    digitChar d ∈ "0123456789".toList := by
  interval_cases d <;> decide

theorem natDigitsAux_subset :
    ∀ (fuel n : Nat), ∀ c ∈ natDigitsAux fuel n, c ∈ "0123456789".toList := by
  intro fuel
  induction fuel with
  | zero => intro n c hc; cases hc
  | succ f ih =>
    intro n c hc
    simp only [natDigitsAux] at hc
    by_cases h10 : n < 10
    · simp [h10] at hc
      subst hc; exact digitChar_mem n h10
    · simp [h10] at hc
      rcases hc with hc | hc
      · exact ih _ c hc
      · subst hc; exact digitChar_mem _ (Nat.mod_lt _ (by norm_num))

theorem natDigits_subset (n : Nat) : ∀ c ∈ natDigits n, c ∈ "0123456789".toList :=
  natDigitsAux_subset (n + 1) n

/-- A list is a prefix of itself extended. -/
theorem startsL_refl_append {α : Type} [DecidableEq α] :
    ∀ (n b : List α), startsL n (n ++ b) = true := by
  intro n
  induction n with
  | nil => intro b; simp [startsL]
  | cons a as ih => intro b; simp [startsL, ih]

theorem containsL_nil_needle {α : Type} [DecidableEq α] :
    ∀ (h : List α), containsL ([] : List α) h = true := by
  intro h; cases h <;> simp [containsL, startsL]

/-- The needle occurs in `a ++ needle ++ b`. -/
theorem containsL_append_self {α : Type} [DecidableEq α] :
    ∀ (a n b : List α), containsL n (a ++ n ++ b) = true := by
  intro a
  induction a with
  | nil =>
    intro n b
    cases n with
    | nil => exact containsL_nil_needle b
    | cons x xs =>
      simp only [List.nil_append, containsL]
      have h := startsL_refl_append (x :: xs) b
      simp only [List.cons_append] at h
      simp [h]
  | cons a0 as ih =>
    intro n b
    simp only [List.cons_append, containsL]
    have h := ih n b
    rw [List.append_assoc] at h
    simp [h]

-- C8 machinery

theorem isKnownCode_70 : isKnownCode 70 = true := by decide

theorem astcIdName_unknown (n : Nat) (hk : isKnownCode n = false) :
    astcIdName n = "ASTC_UNKNOWN_".toList ++ natDigits n := by
  have hfind : astcIdToName.find? (fun p => p.1 = n) = none := by
    rw [List.find?_eq_none]
    intro p hp
    have hall : ∀ q ∈ astcIdToName, isKnownCode q.1 = true := by decide
    have := hall p hp
    simp only [decide_eq_true_eq]
    intro he
    rw [he] at this
    rw [this] at hk
    cases hk
  simp [astcIdName, hfind]

theorem ne_70_of_unknown (n : Nat) (hk : isKnownCode n = false) : n ≠ 70 := by
  intro h
  subst h
  rw [isKnownCode_70] at hk
  cases hk

theorem formatNameP_unknown_out (n : Nat) (hk : isKnownCode n = false)
    (hb : ¬ n ∈ astcIds) :
    formatNameP false n =
      "UNKNOWN (".toList ++ natDigits n ++ ")".toList := by
  simp [formatNameP, hb, ne_70_of_unknown n hk]

theorem formatNameP_unknown_in (n : Nat) (hk : isKnownCode n = false)
    (hb : n ∈ astcIds) :
    formatNameP false n = "ASTC_UNKNOWN_".toList ++ natDigits n := by
  simp [formatNameP, hb, astcIdName_unknown n hk]

/-- Characters of the `UNKNOWN (<code>)` display name. -/
theorem unknown_out_chars (n : Nat) :
    ∀ c ∈ "UNKNOWN (".toList ++ natDigits n ++ ")".toList,
      c ∈ "UNKNOWN ()0123456789".toList := by
  intro c hc
  rcases List.mem_append.mp hc with hc | hc
  · rcases List.mem_append.mp hc with hc | hc
    · revert hc
      have : ∀ x ∈ "UNKNOWN (".toList, x ∈ "UNKNOWN ()0123456789".toList := by
        decide
      exact this c
    · have := natDigits_subset n c hc
      revert this
      have : ∀ x ∈ "0123456789".toList, x ∈ "UNKNOWN ()0123456789".toList := by
        decide
      exact this c
  · revert hc
    have : ∀ x ∈ ")".toList, x ∈ "UNKNOWN ()0123456789".toList := by decide
    exact this c

/-- Characters of the `ASTC_UNKNOWN_<code>` display name. -/
theorem unknown_in_chars (n : Nat) :
    ∀ c ∈ "ASTC_UNKNOWN_".toList ++ natDigits n,
      c ∈ "ASTC_UNKNOWN_0123456789".toList := by
  intro c hc
  rcases List.mem_append.mp hc with hc | hc
  · revert hc
    have : ∀ x ∈ "ASTC_UNKNOWN_".toList,
        x ∈ "ASTC_UNKNOWN_0123456789".toList := by decide
    exact this c
  · have := natDigits_subset n c hc
    revert this
    have : ∀ x ∈ "0123456789".toList,
        x ∈ "ASTC_UNKNOWN_0123456789".toList := by decide
    exact this c

theorem not_mem_out (n : Nat) (c : Char)
    (hc : c ∉ "UNKNOWN ()0123456789".toList) :
    c ∉ "UNKNOWN (".toList ++ natDigits n ++ ")".toList :=
  fun h => hc (unknown_out_chars n c h)

theorem not_mem_in (n : Nat) (c : Char)
    (hc : c ∉ "ASTC_UNKNOWN_0123456789".toList) :
    c ∉ "ASTC_UNKNOWN_".toList ++ natDigits n :=
  fun h => hc (unknown_in_chars n c h)

theorem isEtcP_unknown (n : Nat) (hk : isKnownCode n = false) :
    isEtcP false n = false := by
  by_cases hb : n ∈ astcIds
  · rw [isEtcP, formatNameP_unknown_in n hk hb,
      containsL_eq_false_of_missing _ _ 'E' (by decide)
        (not_mem_in n 'E' (by decide)),
      containsL_eq_false_of_missing _ _ 'E' (by decide)
        (not_mem_in n 'E' (by decide))]
    rfl
  · rw [isEtcP, formatNameP_unknown_out n hk hb,
      containsL_eq_false_of_missing _ _ 'E' (by decide)
        (not_mem_out n 'E' (by decide)),
      containsL_eq_false_of_missing _ _ 'E' (by decide)
        (not_mem_out n 'E' (by decide))]
    rfl

theorem isPvrtcP_unknown (n : Nat) (hk : isKnownCode n = false) :
    isPvrtcP false n = false := by
  by_cases hb : n ∈ astcIds
  · rw [isPvrtcP, formatNameP_unknown_in n hk hb,
      containsL_eq_false_of_missing _ _ 'P' (by decide)
        (not_mem_in n 'P' (by decide))]
  · rw [isPvrtcP, formatNameP_unknown_out n hk hb,
      containsL_eq_false_of_missing _ _ 'P' (by decide)
        (not_mem_out n 'P' (by decide))]

theorem isSrgbP_unknown (n : Nat) (hk : isKnownCode n = false) :
    isSrgbP false n = false := by
  by_cases hb : n ∈ astcIds
  · rw [isSrgbP, formatNameP_unknown_in n hk hb,
      containsL_eq_false_of_missing _ _ 'G' (by decide)
        (not_mem_in n 'G' (by decide)),
      containsL_eq_false_of_missing _ _ 'G' (by decide)
        (not_mem_in n 'G' (by decide)),
      containsL_eq_false_of_missing _ _ 'G' (by decide)
        (not_mem_in n 'G' (by decide))]
    rfl
  · rw [isSrgbP, formatNameP_unknown_out n hk hb,
      containsL_eq_false_of_missing _ _ 'G' (by decide)
        (not_mem_out n 'G' (by decide)),
      containsL_eq_false_of_missing _ _ 'G' (by decide)
        (not_mem_out n 'G' (by decide)),
      containsL_eq_false_of_missing _ _ 'G' (by decide)
        (not_mem_out n 'G' (by decide))]
    rfl

theorem isAstcP_unknown_in (n : Nat) (hb : n ∈ astcIds) :
    isAstcP false n = true := by
  simp [isAstcP, hb]

theorem isAstcP_unknown_out (n : Nat) (hk : isKnownCode n = false)
    (hb : ¬ n ∈ astcIds) : isAstcP false n = false := by
  rw [isAstcP, formatNameP_unknown_out n hk hb,
    containsL_eq_false_of_missing _ _ 'A' (by decide)
      (not_mem_out n 'A' (by decide))]
  simp [hb]

theorem isUncompressedP_unknown (n : Nat) (hk : isKnownCode n = false) :
    isUncompressedP false n = false := by
  by_cases hb : n ∈ astcIds
  · simp [isUncompressedP, isAstcP_unknown_in n hb]
  · rw [isUncompressedP]
    rw [isAstcP_unknown_out n hk hb, isEtcP_unknown n hk,
      isPvrtcP_unknown n hk]
    simp only [Bool.or_self, Bool.or_false, Bool.false_or,
      Bool.false_eq_true, reduceIte]
    rw [List.any_eq_false]
    intro needle hn
    have hr : 'R' ∈ needle := by
      revert hn
      have hall : ∀ x ∈ uncompressedNeedles, 'R' ∈ x := by decide
      exact hall needle
    rw [formatNameP_unknown_out n hk hb]
    simp only [Bool.not_eq_true]
    exact containsL_eq_false_of_missing _ _ 'R' hr
      (not_mem_out n 'R' (by decide))

theorem takeDigits_snd_subset : ∀ (cs : List Char), ∀ c ∈ (takeDigits cs).2, c ∈ cs := by
  intro cs
  induction cs with
  | nil => intro c hc; cases hc
  | cons a t ih =>
    intro c hc
    simp only [takeDigits] at hc
    by_cases hd : a.isDigit
    · simp [hd] at hc
      exact List.mem_cons.mpr (Or.inr (ih c hc))
    · simp [hd] at hc
      rcases hc with hc | hc
      · exact List.mem_cons.mpr (Or.inl hc)
      · exact List.mem_cons.mpr (Or.inr hc)

theorem matchBlockAt_none_of_no_x (cs : List Char) (hx : 'x' ∉ cs) :
    matchBlockAt cs = none := by
  simp only [matchBlockAt]
  by_cases he : (takeDigits cs).1.isEmpty
  · simp [he]
  · simp only [he, Bool.false_eq_true, reduceIte]
    cases hr : (takeDigits cs).2 with
    | nil => rfl
    | cons c0 rest =>
      have hc0 : c0 ≠ 'x' := by
        intro h
        apply hx
        apply takeDigits_snd_subset cs
        rw [hr, h]
        exact List.mem_cons_self _ _
      simp [hc0]

theorem regexBlockSearch_none_of_no_x :
    ∀ (cs : List Char), 'x' ∉ cs → regexBlockSearch cs = none := by
  intro cs
  induction cs with
  | nil => intro _; rfl
  | cons c t ih =>
    intro hx
    simp only [regexBlockSearch]
    rw [matchBlockAt_none_of_no_x _ hx]
    exact ih (fun h => hx (List.mem_cons.mpr (Or.inr h)))

theorem dispatchDecode_unknown (dc : DecoderCap) (t : Texture)
    (td : List Nat) (hkn : t.known = false)
    (hk : isKnownCode t.pixelType = false) :
    dispatchDecode dc t td = none := by
  by_cases hb : t.pixelType ∈ astcIds
  · have ha : isAstcT t = true := by
      rw [isAstcT, hkn]; exact isAstcP_unknown_in _ hb
    have hname : t.name = "ASTC_UNKNOWN_".toList ++ natDigits t.pixelType := by
      rw [Texture.name, hkn]; exact formatNameP_unknown_in _ hk hb
    have hregex : regexBlockSearch t.name = none := by
      rw [hname]
      exact regexBlockSearch_none_of_no_x _
        (not_mem_in t.pixelType 'x' (by decide))
    simp only [dispatchDecode, ha, if_true, hregex]
  · have ha : isAstcT t = false := by
      rw [isAstcT, hkn]; exact isAstcP_unknown_out _ hk hb
    have he : isEtcT t = false := by
      rw [isEtcT, hkn]; exact isEtcP_unknown _ hk
    have hu : isUncompressedT t = false := by
      rw [isUncompressedT, hkn]; exact isUncompressedP_unknown _ hk
    have hp : isPvrtcT t = false := by
      rw [isPvrtcT, hkn]; exact isPvrtcP_unknown _ hk
    simp only [dispatchDecode, ha, he, hu, hp, Bool.false_eq_true, reduceIte]

theorem decodeTexture_unknown (zc : ZstdCap) (dc : DecoderCap)
    (dp : Option (List Nat)) (t : Texture) (u : Bool)
    (hkn : t.known = false) (hk : isKnownCode t.pixelType = false) :
    decodeTexture zc dc dp t u = none := by
  rw [decodeTexture]
  set td? : Option (List Nat) :=
    if u && dataTruthy dp then dp
    else if dataTruthy t.data then
      some (if isCompressedData zc t then decompressData zc t
            else t.data.getD [])
    else none with htd
  cases td? with
  | none => rfl
  | some td =>
    simp only []
    by_cases hlen : td.length < 16
    · simp [hlen]
    · simp [hlen, dispatchDecode_unknown dc t td hkn hk]


/-- Channel count used by the uncompressed branch of
`CalculateExpectedSize` for each uncompressed-family code, as computed by
the source's name-substring chain (lines 288-296): the byte width of the
stored channels (half/float) never enters the formula. -/
def uncompressedChannelTable : List (Nat × Nat) :=
  [(280, 1), (281, 1), (282, 1), (283, 1), (284, 1), (285, 1),
   (286, 2), (287, 2), (288, 2), (289, 2), (290, 2), (291, 2),
   (292, 3), (293, 3), (294, 3), (295, 3), (296, 3), (297, 3),
   (298, 4), (299, 4), (300, 4), (301, 4), (302, 4), (303, 4),
   (304, 3), (305, 4), (306, 4),
   (319, 4), (320, 4), (321, 3), (322, 3), (323, 2), (324, 1),
   (325, 4), (326, 3), (70, 4)]

theorem calcSize_linear (c ch w h : Nat)
    (hclass : sizeClassP (isKnownCode c) c = SizeKind.linear ch)
    (hw : w ≠ 0) (hh : h ≠ 0) :
    calculateExpectedSize (mkTexture c w h) = w * h * ch := by
  simp only [calculateExpectedSize, mkTexture]
  rw [if_neg (by simp [hw, hh])]
  rw [hclass]

theorem calcSize_block (c bw bh bpb w h : Nat)
    (hclass : sizeClassP (isKnownCode c) c = SizeKind.block bw bh bpb)
    (hw : w ≠ 0) (hh : h ≠ 0) :
    calculateExpectedSize (mkTexture c w h) =
      ((w + bw - 1) / bw) * ((h + bh - 1) / bh) * bpb := by
  simp only [calculateExpectedSize, mkTexture]
  rw [if_neg (by simp [hw, hh])]
  rw [hclass]

/-- Block footprint and bytes-per-block used by the block branches of
`CalculateExpectedSize` for each ASTC and ETC/EAC code (lines 266-286):
16 bytes/block exactly when the name contains `"RGBA"`, 8 otherwise —
including the dual-channel `EAC_RG11` formats. -/
def blockFormatTable : List (Nat × Nat × Nat × Nat) :=
  [(186, 4, 4, 16), (187, 5, 4, 16), (188, 5, 5, 16), (189, 6, 5, 16),
   (190, 6, 6, 16), (192, 8, 5, 16), (193, 8, 6, 16), (194, 8, 8, 16),
   (195, 10, 5, 16), (196, 10, 6, 16), (197, 10, 8, 16), (198, 10, 10, 16),
   (199, 12, 10, 16), (200, 12, 12, 16),
   (204, 4, 4, 16), (205, 5, 4, 16), (206, 5, 5, 16), (207, 6, 5, 16),
   (208, 6, 6, 16), (210, 8, 5, 16), (211, 8, 6, 16), (212, 8, 8, 16),
   (213, 10, 5, 16), (214, 10, 6, 16), (215, 10, 8, 16), (216, 10, 10, 16),
   (217, 12, 10, 16), (218, 12, 12, 16),
   (170, 4, 4, 8), (172, 4, 4, 8), (174, 4, 4, 8), (176, 4, 4, 8),
   (178, 4, 4, 16), (179, 4, 4, 16), (180, 4, 4, 8), (181, 4, 4, 8),
   (182, 4, 4, 8), (183, 4, 4, 8), (263, 4, 4, 8)]

theorem isCompressedData_false (zc : ZstdCap) (t : Texture) (d : List Nat)
    (ht : t.data = some d) (hmag : d.take 4 ≠ zstdMagic)
    (hprobe : zc.decompress (d.take 100) (some 1000) = none) :
    isCompressedData zc t = false := by
  rw [isCompressedData, ht]
  by_cases hlen : d.length < 4
  · simp [hlen]
  · simp [hlen, hmag, hprobe]

theorem decodeTexture_own_data (zc : ZstdCap) (dc : DecoderCap)
    (dp : Option (List Nat)) (t : Texture) (d : List Nat)
    (ht : t.data = some d) (hne : d ≠ [])
    (hic : isCompressedData zc t = false) :
    decodeTexture zc dc dp t false =
      if d.length < 16 then none else dispatchDecode dc t d := by
  have hemp : d.isEmpty = false := by
    cases d with
    | nil => exact absurd rfl hne
    | cons a l => rfl
  rw [decodeTexture]
  simp only [Bool.false_and, Bool.false_eq_true, reduceIte, ht, dataTruthy,
    hemp, Bool.not_false, hic, Option.getD_some]

theorem bgraSwap4_isSome (d : List Nat) (h : d.length % 4 = 0) :
    (bgraSwap4 d).isSome = true := by
  match d with
  | [] => rfl
  | [a] => simp at h
  | [a, b] => simp at h
  | [a, b, c] => simp [Nat.mod_eq_of_lt] at h
  | a :: b :: c :: e :: rest =>
    have hr : rest.length % 4 = 0 := by
      simp only [List.length_cons] at h
      omega
    have hs := bgraSwap4_isSome rest hr
    simp only [bgraSwap4]
    cases hb : bgraSwap4 rest with
    | none => rw [hb] at hs; cases hs
    | some o => simp

theorem brRead_len (r : BR) (n : Nat) :
    (brRead r n).1.length = min n (r.data.length - r.pos) := by
  simp [brRead]

theorem brRead_pos (r : BR) (n : Nat) (hp : r.pos ≤ r.data.length) :
    (brRead r n).2.pos = min (r.pos + n) r.data.length := by
  simp only [brRead, List.length_take, List.length_drop]
  omega

theorem brReadUint_eof (data : List Nat) :
    (brReadUint ⟨data, data.length⟩).1 = 0 := by
  simp [brReadUint, brRead, List.drop_length, fromLe]

theorem clampedRead_spec (r : BR) (len : Nat) (hp : r.pos ≤ r.data.length) :
    (clampedRead r len).1.length = min len (r.data.length - r.pos) ∧
    (clampedRead r len).2.1.pos = min (r.pos + len) r.data.length ∧
    ((clampedRead r len).2.2 = true ↔ r.data.length - r.pos < len) := by
  rw [clampedRead]
  by_cases hc : len > r.data.length - r.pos
  · simp only [hc, if_true]
    refine ⟨?_, ?_, by simp [hc]⟩
    · rw [brRead_len]; omega
    · rw [brRead_pos _ _ hp]; omega
  · simp only [hc, if_false]
    refine ⟨?_, ?_, by simp [hc]⟩
    · rw [brRead_len]
    · rw [brRead_pos _ _ hp]

theorem readStreamingData_header_overrun (sid : Nat) (blk : List Nat)
    (h4 : 4 ≤ blk.length) (hov : blk.length - 4 < fromLe (blk.take 4)) :
    readStreamingData sid blk = ⟨none, none, none, 4⟩ := by
  rw [readStreamingData]
  rw [if_neg (by omega)]
  have hval : (brReadUint ⟨blk, 0⟩).1 = fromLe (blk.take 4) := by
    simp [brReadUint, brRead]
  have hpos : (brReadUint ⟨blk, 0⟩).2.pos = 4 := by
    simp only [brReadUint, brRead, List.drop_zero, List.length_take]
    omega
  rw [if_pos (by rw [hval]; omega)]
  rw [hpos]

theorem scanAux_calls_none (zc : ZstdCap) (fd : List Nat) :
    ∀ (offs : List Nat) (cp : Option (List Nat))
      (calls : List (List Nat × Option Nat)),
      (∀ pr ∈ calls, pr.2 = none) →
      ∀ pr ∈ (scanAux zc fd offs cp calls).calls, pr.2 = none := by
  intro offs
  induction offs with
  | nil =>
    intro cp calls hc pr hpr
    simp only [scanAux] at hpr
    split at hpr
    · split at hpr <;>
        (simp only at hpr
         rcases List.mem_append.mp hpr with h | h
         · exact hc pr h
         · simp at h; rw [h])
    · exact hc pr hpr
  | cons off rest ih =>
    intro cp calls hc pr hpr
    simp only [scanAux] at hpr
    split at hpr
    · split at hpr
      · simp only at hpr
        rcases List.mem_append.mp hpr with h | h
        · exact hc pr h
        · simp at h; rw [h]
      · refine ih _ _ ?_ pr hpr
        intro q hq
        rcases List.mem_append.mp hq with h | h
        · exact hc q h
        · simp at h; rw [h]
    · exact ih _ _ hc pr hpr

deriving instance DecidableEq for Except

/-! ### Concrete fixtures -/

/-- A capability that claims every input decompresses (with no declared
ceiling) to 100 MiB + 1 bytes, while honouring any `max_output_size`
ceiling it is actually given — the behaviour of a decompression bomb
under the real `zstandard` API. -/
def zcBig : ZstdCap :=
  ⟨fun _ o =>
    match o with
    | none => some (List.replicate 104857601 0)
    | some m =>
      if 104857601 ≤ m then some (List.replicate 104857601 0) else none⟩

/-- A 5-byte file whose first four bytes are the zstd magic. -/
def c1file : List Nat := zstdMagic ++ [0]

/-- 42-byte file: streaming-block length 0 (so `ReadStreamingData`
returns without creating a texture), then texture-block length 34 and a
34-byte texture-header block. -/
def c2file : List Nat := [0, 0, 0, 0, 34, 0, 0, 0] ++ List.replicate 34 0

/-- A 5-byte streaming block whose declared header length (5) exceeds the
4 remaining bytes less the length field, i.e. `L = 5 > R = 1`. -/
def c3blk : List Nat := [5, 0, 0, 0, 0]

/-- A file whose streaming block is `c3blk` (length 5, no clamping
anomaly at top level). -/
def c3file : List Nat := [5, 0, 0, 0] ++ c3blk

def d10 : List Nat := [1, 2, 3, 4, 5, 6, 7, 8, 9, 10]

def d16 : List Nat :=
  [1, 2, 3, 4, 5, 6, 7, 8, 9, 10, 11, 12, 13, 14, 15, 16]

/-- Streaming-texture sub-block (54 bytes): 28-byte prefix, 4x4, format
263 (`ETC1_RGB8`), declared data length 10, 10 data bytes. -/
def subBlkA : List Nat :=
  List.replicate 28 0 ++ [4, 0] ++ [4, 0] ++ [7, 1, 0, 0] ++
    [0, 0, 0, 0] ++ [10, 0, 0, 0] ++ d10

/-- Streaming block (94 bytes): header length 0, format 263, 4x4, main
data length 0, 16-byte skip, sub-block length 54, `subBlkA`. -/
def strBlkA : List Nat :=
  [0, 0, 0, 0] ++ [7, 1, 0, 0] ++ [4, 0] ++ [4, 0] ++ [0, 0, 0, 0] ++
    [0, 0, 0, 0] ++ List.replicate 16 0 ++ [54, 0, 0, 0] ++ subBlkA

/-- Texture-header block (34 bytes): 24-byte prefix, main dimensions
8x8. -/
def texBlkMain : List Nat :=
  List.replicate 24 0 ++ [8, 0] ++ [8, 0] ++ [0, 0, 0, 0] ++ [0, 0]

/-- Container whose main texture ends up with no data of its own and
whose streaming texture carries 10 bytes. -/
def c7fileA : List Nat := [94, 0, 0, 0] ++ strBlkA ++ [34, 0, 0, 0] ++ texBlkMain

/-- As `subBlkA` but with 16 data bytes. -/
def subBlkB : List Nat :=
  List.replicate 28 0 ++ [4, 0] ++ [4, 0] ++ [7, 1, 0, 0] ++
    [0, 0, 0, 0] ++ [16, 0, 0, 0] ++ d16

/-- As `strBlkA` but carrying `subBlkB` (100 bytes). -/
def strBlkB : List Nat :=
  [0, 0, 0, 0] ++ [7, 1, 0, 0] ++ [4, 0] ++ [4, 0] ++ [0, 0, 0, 0] ++
    [0, 0, 0, 0] ++ List.replicate 16 0 ++ [60, 0, 0, 0] ++ subBlkB

/-- Container whose main texture (8x8) receives the streaming texture's
(4x4) 16 data bytes through the post-parse repair. -/
def c7fileB : List Nat := [100, 0, 0, 0] ++ strBlkB ++ [34, 0, 0, 0] ++ texBlkMain

/-- A block-decoder capability whose ETC1 entry reports the width and
height it was invoked with (as the first two bytes of one RGBA pixel),
making the dimensions the dispatcher passes observable. -/
def dcEtcRec : DecoderCap :=
  { dcNone with etc1 := fun _ w h => some [w, h, 0, 0] }

/-- A block-decoder capability whose PVRTC entry reports the 2-bpp flag
it was invoked with (`[9,9,9,9]` for 2 bpp, `[8,8,8,8]` for 4 bpp). -/
def dcPvrtcRec : DecoderCap :=
  { dcNone with
    pvrtc := fun _ _ _ b =>
      if b then some [9, 9, 9, 9] else some [8, 8, 8, 8] }

/-! ### Claims -/

/-- Claim C1, amended (the locator passes no output-size ceiling): every
`decompress` invocation made by `FindAndDecompressPayload` — probed
offsets and linear-scan fallback alike — passes `none` as
`max_output_size`; the 100 MiB default ceiling exists only in
`Texture.DecompressData` (see `decompressBudget`). -/
theorem c1_locator_passes_no_ceiling (zc : ZstdCap) (fd : List Nat)
    (pr : List Nat × Option Nat)
    (hpr : pr ∈ (findAndDecompressPayload zc fd).calls) : pr.2 = none :=
  scanAux_calls_none zc fd probeOffsets none []
    (by intro q hq; cases hq) pr hpr

/-- Witness for C1: on a file carrying the zstd magic at offset 0, the
locator makes a ceiling-less call whose recorded ceiling is `none`. -/
theorem c1_locator_passes_no_ceiling_witness :
    (c1file, (none : Option Nat)) ∈
      (findAndDecompressPayload zcNone c1file).calls ∧
    ((c1file, (none : Option Nat)) : List Nat × Option Nat).2 = none :=
  ⟨by decide,
   c1_locator_passes_no_ceiling zcNone c1file (c1file, none) (by decide)⟩

/-- Counterexample to claim C1 as stated: under a capability that honours
any given ceiling but (absent one) produces 100 MiB + 1 bytes, the
Payload Locator's decompressed payload exceeds 100 MiB — no
decompression failure occurs, because `FindAndDecompressPayload` passes
no `max_output_size` at all (source line 366). -/
theorem c1_payload_exceeds_100mib :
    ((findAndDecompressPayload zcBig c1file).decompressedPayload).map
        List.length = some 104857601 ∧ 104857600 < 104857601 := by
  constructor
  · rw [findAndDecompressPayload, probeOffsets]
    rw [scanAux]
    rw [if_pos (by decide)]
    show some (List.replicate 104857601 0).length = _
    rw [List.length_replicate]
  · decide

set_option maxRecDepth 4000 in
/-- Claim C2 (code bug): on `c2file` — streaming block empty, so no main
texture is created, while a 34-byte texture-header block follows — the
container parse raises `AttributeError` at `self.Texture.Width`
(source line 470) instead of completing. -/
theorem c2_parse_raises_attribute_error :
    sctxInit zcNone c2file 255 = Except.error PyError.attributeError := by
  decide

/-- Claim C3, amended: the three top-level length fields (streaming-block
length, texture-block length, texture-data length) are clamped to the
remaining byte count — the parser consumes `min(L, R)` bytes, never
advances past the buffer end, and warns exactly on overrun (all three
sites go through `clampedRead`).  The streaming-block header length
inside `ReadStreamingData` is NOT clamped: when it overruns, the
procedure returns at once, consuming nothing beyond the length field and
leaving every entity absent, with no warning. -/
theorem c3_toplevel_clamped_header_abandoned (r : BR) (len : Nat)
    (hp : r.pos ≤ r.data.length) :
    ((clampedRead r len).1.length = min len (r.data.length - r.pos) ∧
      (clampedRead r len).2.1.pos = min (r.pos + len) r.data.length ∧
      (clampedRead r len).2.1.pos ≤ r.data.length ∧
      ((clampedRead r len).2.2 = true ↔ r.data.length - r.pos < len)) ∧
    (∀ (sid : Nat) (blk : List Nat), 4 ≤ blk.length →
      blk.length - 4 < fromLe (blk.take 4) →
      readStreamingData sid blk = ⟨none, none, none, 4⟩) := by
  have h := clampedRead_spec r len hp
  exact ⟨⟨h.1, h.2.1, by rw [h.2.1]; omega, h.2.2⟩,
    fun sid blk h4 hov => readStreamingData_header_overrun sid blk h4 hov⟩

/-- Witness for C3: a 3-byte buffer asked for 5 bytes yields the 3
remaining bytes, ends at the buffer end, and fires the warning; and the
5-byte streaming block `c3blk` (declared header length 5 > remaining 1)
is abandoned at position 4 with nothing parsed. -/
theorem c3_toplevel_clamped_header_abandoned_witness :
    (clampedRead ⟨[1, 2, 3], 0⟩ 5).1.length =
        min 5 (([1, 2, 3] : List Nat).length - 0) ∧
    (clampedRead ⟨[1, 2, 3], 0⟩ 5).2.2 = true ∧
    readStreamingData 255 c3blk = ⟨none, none, none, 4⟩ := by
  have h := c3_toplevel_clamped_header_abandoned ⟨[1, 2, 3], 0⟩ 5 (by decide)
  exact ⟨h.1.1, h.1.2.2.2.mpr (by decide), h.2 255 c3blk (by decide) (by decide)⟩

/-- Counterexample to claim C3 as stated: in `ReadStreamingData` the
header length 5 with 1 byte remaining is not clamped — the parser
consumes 0 of the remaining bytes (final position 4, not
`4 + min 5 1 = 5`), creates no texture, and the whole-file parse of
`c3file` records no warning. -/
theorem c3_streaming_header_not_clamped :
    readStreamingData 255 c3blk = ⟨none, none, none, 4⟩ ∧
    min 5 (c3blk.length - 4) = 1 ∧
    (readStreamingData 255 c3blk).finalPos ≠ 4 + min 5 (c3blk.length - 4) ∧
    (sctxInit zcNone c3file 255).toOption.map Sctx.warnings = some [] := by
  refine ⟨by decide, by decide, by decide, by decide⟩

/-- Claim C4, amended (the cursor clamps silently, no `TruncatedRead`
exists): a read of `n` bytes returns exactly `min(n, remaining)` bytes
(the whole remainder when `n` overruns), advances to
`min(pos + n, length)` — never past the end — and the fixed-width
readers return the little-endian value of whatever bytes they obtained,
`0` at end-of-buffer; no failure path exists in `BinaryReader`. -/
theorem c4_cursor_clamps_silently (data : List Nat) (pos n : Nat)
    (hp : pos ≤ data.length) :
    (brRead ⟨data, pos⟩ n).1.length = min n (data.length - pos) ∧
    (brRead ⟨data, pos⟩ n).2.pos = min (pos + n) data.length ∧
    (brRead ⟨data, pos⟩ n).2.pos ≤ data.length ∧
    (brReadUint ⟨data, data.length⟩).1 = 0 := by
  refine ⟨brRead_len _ _, brRead_pos _ _ hp, ?_, brReadUint_eof data⟩
  rw [brRead_pos _ _ hp]
  exact Nat.min_le_right _ _

/-- Witness for C4: asking a 1-byte buffer for 4 bytes returns 1 byte
and stops at the end. -/
theorem c4_cursor_clamps_silently_witness :
    (brRead ⟨[7], 0⟩ 4).1.length = min 4 (([7] : List Nat).length - 0) ∧
    (brRead ⟨[7], 0⟩ 4).2.pos = min (0 + 4) ([7] : List Nat).length := by
  have h := c4_cursor_clamps_silently [7] 0 4 (by decide)
  exact ⟨h.1, h.2.1⟩

/-- Counterexample to claim C4 as stated: `ReadUint` on a 1-byte buffer
does not fail — it silently consumes the single byte and returns its
value (`BytesIO.read` clamps; `int.from_bytes` accepts short input).
There is no `TruncatedRead` anywhere in `BinaryReader`. -/
theorem c4_short_read_returns_value :
    (brRead ⟨[7], 0⟩ 4).1 = [7] ∧
    (brRead ⟨[7], 0⟩ 4).1.length = 1 ∧ (1 : Nat) ≠ 4 ∧
    (brReadUint ⟨[7], 0⟩).1 = 7 ∧ (brReadUint ⟨[7], 0⟩).2.pos = 1 := by
  refine ⟨by decide, by decide, by decide, by decide, by decide⟩

/-- Claim C5, amended: with at least 16 bytes of 4-aligned data that the
compression probe rejects, the dispatcher byte-swaps the plain 8-bit
RGBA variants (`RGBA8` 298, `RGBA8_SIGNED` 299) to per-pixel (B,G,R,A),
tagged RGBA; but the `RGBA8Unorm` family (319, 320, and alias 70) passes
through UNCHANGED ("treating as BGRA", source line 573-576), as do the
BGRA variants (305, 306, 325). -/
theorem c5_rgba8_swapped_unorm_passthrough (zc : ZstdCap)
    (dc : DecoderCap) (code w h : Nat) (d : List Nat)
    (hlen : 16 ≤ d.length) (hmod : d.length % 4 = 0)
    (hmag : d.take 4 ≠ zstdMagic)
    (hprobe : zc.decompress (d.take 100) (some 1000) = none) :
    ((code = 298 ∨ code = 299) →
      decodeTexture zc dc none { mkTexture code w h with data := some d }
          false = (bgraSwap4 d).map (fun o => (o, PixMode.rgba)) ∧
        (bgraSwap4 d).isSome = true) ∧
    ((code = 319 ∨ code = 320 ∨ code = 70 ∨ code = 305 ∨ code = 306 ∨
        code = 325) →
      decodeTexture zc dc none { mkTexture code w h with data := some d }
          false = some (d, PixMode.rgba)) := by
  have hne : d ≠ [] := by
    intro he
    rw [he] at hlen
    simp at hlen
  have h16 : ¬ d.length < 16 := by omega
  constructor
  · rintro (rfl | rfl) <;>
      exact ⟨by
        rw [decodeTexture_own_data zc dc none _ d rfl hne
          (isCompressedData_false zc _ d rfl hmag hprobe)]
        rw [if_neg h16]
        rfl, bgraSwap4_isSome d hmod⟩
  · rintro (rfl | rfl | rfl | rfl | rfl | rfl) <;>
      (rw [decodeTexture_own_data zc dc none _ d rfl hne
        (isCompressedData_false zc _ d rfl hmag hprobe)]
       rw [if_neg h16]
       rfl)

/-- Witness for C5: a concrete 16-byte `RGBA8` texture decodes to the
per-pixel (B,G,R,A) permutation, tagged RGBA. -/
theorem c5_rgba8_swapped_unorm_passthrough_witness :
    decodeTexture zcNone dcNone none
        { mkTexture 298 2 2 with data := some d16 } false =
      some ([3, 2, 1, 4, 7, 6, 5, 8, 11, 10, 9, 12, 15, 14, 13, 16],
        PixMode.rgba) := by
  have h := (c5_rgba8_swapped_unorm_passthrough zcNone dcNone 298 2 2 d16
    (by decide) (by decide) (by decide) rfl).1 (Or.inl rfl)
  rw [h.1]
  decide

/-- Counterexample to claim C5 as stated: an `RGBA8Unorm` (code 319)
texture — an "8-bit RGBA-layout" source per the claim — is returned
unchanged, not byte-swapped, and the swap would have produced different
bytes. -/
theorem c5_rgba8unorm_not_swapped :
    decodeTexture zcNone dcNone none
        { mkTexture 319 2 2 with data := some d16 } false =
      some (d16, PixMode.rgba) ∧
    bgraSwap4 d16 ≠ some d16 := by
  refine ⟨by decide, by decide⟩

/-- Claim C6 (code bug): `Is2Bpp = "2" in FormatName` (source line 645)
is true for `PVRTC2_RGBA4` (317) and `PVRTC2_SRGBA4` (318) because the
`"2"` of `"PVRTC2"` matches, so these 4-bpp formats are decoded with the
2-bpp flag; the PVRTC1 4-bpp variants (e.g. 313) correctly get the 4-bpp
flag, and a recording capability confirms the dispatcher hands the
decoder `is2bpp = true` for code 317. -/
theorem c6_pvrtc2_4bpp_gets_2bpp_flag :
    pvrtcIs2Bpp (mkTexture 317 4 4) = true ∧
    pvrtcIs2Bpp (mkTexture 318 4 4) = true ∧
    pvrtcIs2Bpp (mkTexture 313 4 4) = false ∧
    decodeTexture zcNone dcPvrtcRec none
        { mkTexture 317 4 4 with data := some d16 } false =
      some ([9, 9, 9, 9], PixMode.rgba) := by
  refine ⟨by decide, by decide, by decide, by decide⟩

/-- Claim C7, amended: when the main texture's data is absent (or truthy
but under 16 bytes) and the streaming texture holds truthy data `d`, the
post-parse repair substitutes `d` and the streaming texture's declared
length into the main texture — but the main texture's own width and
height are kept; a subsequent decode (when the compression probe rejects
`d`) then runs on the substituted data and passes the 16-byte
`InsufficientData` gate exactly when `d` itself has at least 16 bytes. -/
theorem c7_repair_substitutes_data_keeps_dims (t s : Texture)
    (d : List Nat) (zc : ZstdCap) (dc : DecoderCap)
    (hd : dataTruthy t.data = false ∨ (t.data.getD []).length < 16)
    (hs : s.data = some d) (hne : d ≠ []) :
    repair (some t) (some s) =
      some { t with data := some d, dataLength := s.dataLength } ∧
    ({ t with data := some d, dataLength := s.dataLength } : Texture).width
      = t.width ∧
    ({ t with data := some d, dataLength := s.dataLength } : Texture).height
      = t.height ∧
    (isCompressedData zc
        { t with data := some d, dataLength := s.dataLength } = false →
      decodeTexture zc dc none
          { t with data := some d, dataLength := s.dataLength } false =
        if d.length < 16 then none
        else dispatchDecode dc
          { t with data := some d, dataLength := s.dataLength } d) := by
  have hemp : d.isEmpty = false := by
    cases d with
    | nil => exact absurd rfl hne
    | cons a l => rfl
  refine ⟨?_, rfl, rfl, ?_⟩
  · rw [repair]
    have hcond : (!dataTruthy t.data ||
        decide ((t.data.getD []).length < 16)) = true := by
      rcases hd with hd | hd
      · simp [hd]
      · simp [hd]
    rw [hcond]
    simp only [if_true, hs, dataTruthy, hemp, Bool.not_false, reduceIte]
  · intro hic
    exact decodeTexture_own_data zc dc none _ d rfl hne hic

/-- Witness for C7: an 8x8 `ETC1_RGB8` main texture with no data and a
4x4 streaming texture with 16 bytes; after substitution the decode (with
a recording ETC1 capability) succeeds and reports the main texture's
8x8 dimensions. -/
theorem c7_repair_substitutes_data_keeps_dims_witness :
    repair (some (mkTexture 263 8 8))
        (some { mkTexture 263 4 4 with
                data := some d16, dataLength := 16 }) =
      some { mkTexture 263 8 8 with data := some d16, dataLength := 16 } ∧
    decodeTexture zcNone dcEtcRec none
        { mkTexture 263 8 8 with data := some d16, dataLength := 16 }
        false = some ([0, 8, 8, 0], PixMode.rgba) := by
  have h := c7_repair_substitutes_data_keeps_dims (mkTexture 263 8 8)
    { mkTexture 263 4 4 with
      data := some d16, dataLength := 16 } d16
    zcNone dcEtcRec (Or.inl rfl) rfl (by decide)
  refine ⟨h.1, ?_⟩
  rw [h.2.2.2 (by decide)]
  decide

set_option maxRecDepth 20000 in
/-- Counterexample to claim C7 as stated, at whole-container level: in
`c7fileA` the repair has substituted the streaming texture's 10-byte
data into the main texture, yet the decode FAILS with insufficient data
(10 < 16) — the claim's "rather than failing with insufficient data" is
false; and in `c7fileB` the decode succeeds but the block decoder is
invoked with the MAIN texture's 8x8 dimensions (echoed in the recorded
pixel `[0,8,8,0]`), not the streaming texture's 4x4 — the claim's
"using the streaming texture's ... dimensions" is false. -/
theorem c7_insufficient_and_main_dims :
    sctxDecodeMain zcNone dcNone c7fileA 255 = none ∧
    ((sctxInit zcNone c7fileA 255).toOption.bind Sctx.texture).map
      Texture.data = some (some d10) ∧
    ((sctxInit zcNone c7fileA 255).toOption.bind
      Sctx.streamingTexture).map Texture.data = some (some d10) ∧
    sctxDecodeMain zcNone dcEtcRec c7fileB 255 =
      some ([0, 8, 8, 0], PixMode.rgba) ∧
    ((sctxInit zcNone c7fileB 255).toOption.bind
      Sctx.streamingTexture).map Texture.width = some 4 ∧
    ((sctxInit zcNone c7fileB 255).toOption.bind Sctx.texture).map
      Texture.width = some 8 := by
  refine ⟨by decide, by decide, by decide, by decide, by decide, by decide⟩

/-- Claim C8, amended: for every texture holding an unrecognized format
code (the `ScPixel` lookup failed, so a raw `int` is stored),
construction succeeds and the display name contains the code's decimal
digits; `IsEtc`, `IsPvrtc`, `IsUncompressed` and `IsSrgb` are false; and
every decode attempt fails cleanly with `none` (the unsupported-format
return).  `IsAstc`, however, is true exactly when the raw code lies in
the ASTC id bands — the unrecognized in-band codes (191, 209) classify
as ASTC with name `ASTC_UNKNOWN_<code>` (their decode still fails
cleanly, since that name carries no `<w>x<h>` footprint). -/
theorem c8_unknown_code_classification (t : Texture) (zc : ZstdCap)
    (dc : DecoderCap) (dp : Option (List Nat)) (u : Bool)
    (hkn : t.known = false) (hk : isKnownCode t.pixelType = false) :
    containsL (natDigits t.pixelType) t.name = true ∧
    isEtcT t = false ∧ isPvrtcT t = false ∧ isUncompressedT t = false ∧
    isSrgbT t = false ∧
    (t.pixelType ∈ astcIds → isAstcT t = true) ∧
    (t.pixelType ∉ astcIds → isAstcT t = false) ∧
    decodeTexture zc dc dp t u = none := by
  refine ⟨?_, ?_, ?_, ?_, ?_, ?_, ?_, ?_⟩
  · by_cases hb : t.pixelType ∈ astcIds
    · rw [Texture.name, hkn, formatNameP_unknown_in _ hk hb]
      have h := containsL_append_self "ASTC_UNKNOWN_".toList
        (natDigits t.pixelType) []
      rwa [List.append_nil] at h
    · rw [Texture.name, hkn, formatNameP_unknown_out _ hk hb]
      exact containsL_append_self _ _ _
  · rw [isEtcT, hkn]; exact isEtcP_unknown _ hk
  · rw [isPvrtcT, hkn]; exact isPvrtcP_unknown _ hk
  · rw [isUncompressedT, hkn]; exact isUncompressedP_unknown _ hk
  · rw [isSrgbT, hkn]; exact isSrgbP_unknown _ hk
  · intro hb; rw [isAstcT, hkn]; exact isAstcP_unknown_in _ hb
  · intro hb; rw [isAstcT, hkn]; exact isAstcP_unknown_out _ hk hb
  · exact decodeTexture_unknown zc dc dp t u hkn hk

/-- Witness for C8: code 9999 — name `UNKNOWN (9999)` contains the code,
all predicates false, decode fails cleanly. -/
theorem c8_unknown_code_classification_witness :
    (mkTexture 9999 2 2).known = false ∧
    isKnownCode (mkTexture 9999 2 2).pixelType = false ∧
    (containsL (natDigits (mkTexture 9999 2 2).pixelType)
        (mkTexture 9999 2 2).name = true ∧
      isEtcT (mkTexture 9999 2 2) = false ∧
      isPvrtcT (mkTexture 9999 2 2) = false ∧
      isUncompressedT (mkTexture 9999 2 2) = false ∧
      isSrgbT (mkTexture 9999 2 2) = false ∧
      ((mkTexture 9999 2 2).pixelType ∈ astcIds →
        isAstcT (mkTexture 9999 2 2) = true) ∧
      ((mkTexture 9999 2 2).pixelType ∉ astcIds →
        isAstcT (mkTexture 9999 2 2) = false) ∧
      decodeTexture zcNone dcNone none (mkTexture 9999 2 2) false =
        none) :=
  ⟨by decide, by decide,
   c8_unknown_code_classification (mkTexture 9999 2 2) zcNone dcNone none
     false (by decide) (by decide)⟩

/-- Counterexample to claim C8 as stated: 191 is unrecognized (no
`ScPixel` member has value 191) yet `IsAstc` returns TRUE for it — its
name is `ASTC_UNKNOWN_191` and 191 sits in the ASTC id band
`range(186, 201)` — so "the classification predicates ... all return
false" fails. -/
theorem c8_inband_unknown_code_is_astc :
    isKnownCode 191 = false ∧
    (mkTexture 191 4 4).known = false ∧
    isAstcT (mkTexture 191 4 4) = true ∧
    isAstcT (mkTexture 209 4 4) = true := by
  refine ⟨by decide, by decide, by decide, by decide⟩

/-- Claim C9, amended: for every uncompressed-family format the
Expected-Size Calculator returns `width * height * channels` with ONE
byte per channel regardless of storage width — the 16-bit, half and
float variants are not scaled (e.g. `RGBA16F` gives `w*h*4`, not
`w*h*8`; `R32F` gives `w*h*1`, not `w*h*4`).  The channel counts per
code are tabulated in `uncompressedChannelTable`. -/
theorem c9_uncompressed_size_channels_only :
    ∀ p ∈ uncompressedChannelTable, ∀ w h : Nat, w ≠ 0 → h ≠ 0 →
      calculateExpectedSize (mkTexture p.1 w h) = w * h * p.2 := by
  intro p hp w h hw hh
  apply calcSize_linear
  · revert hp
    have hall : ∀ q ∈ uncompressedChannelTable,
        sizeClassP (isKnownCode q.1) q.1 = SizeKind.linear q.2 := by decide
    exact hall p
  · exact hw
  · exact hh

/-- Witness for C9: a 3x5 `RGBA16F` texture yields 60 bytes
(3 * 5 * 4). -/
theorem c9_uncompressed_size_channels_only_witness :
    calculateExpectedSize (mkTexture 302 3 5) = 60 := by
  rw [c9_uncompressed_size_channels_only (302, 4) (by decide) 3 5
    (by decide) (by decide)]
  decide

/-- Counterexample to claim C9 as stated: a 2x2 `RGBA16F` texture yields
16 bytes, not the claimed `2 * 2 * 8 = 32`; a 2x2 `R32F` texture yields
4 bytes, not the claimed `2 * 2 * 4 = 16` — bytes-per-channel is
ignored. -/
theorem c9_float_widths_ignored :
    calculateExpectedSize (mkTexture 302 2 2) = 16 ∧ (16 : Nat) ≠ 2 * 2 * 8 ∧
    calculateExpectedSize (mkTexture 285 2 2) = 4 ∧ (4 : Nat) ≠ 2 * 2 * 4 := by
  refine ⟨by decide, by decide, by decide, by decide⟩

/-- Claim C10, amended: every block-compressed format yields
`ceil(w/bw) * ceil(h/bh) * bytesPerBlock` with the footprints and
bytes-per-block of `blockFormatTable`: 16 for ASTC and for the ETC/EAC
codes whose name contains `"RGBA"` (`ETC2_EAC_RGBA8`,
`ETC2_EAC_SRGBA8`), but 8 for everything else in the ETC/EAC family —
including the dual-channel `EAC_RG11`/`EAC_SIGNED_RG11` formats, whose
names lack `"RGBA"`. -/
theorem c10_block_size_by_table :
    ∀ p ∈ blockFormatTable, ∀ w h : Nat, w ≠ 0 → h ≠ 0 →
      calculateExpectedSize (mkTexture p.1 w h) =
        ((w + p.2.1 - 1) / p.2.1) * ((h + p.2.2.1 - 1) / p.2.2.1) *
          p.2.2.2 := by
  intro p hp w h hw hh
  apply calcSize_block
  · revert hp
    have hall : ∀ q ∈ blockFormatTable,
        sizeClassP (isKnownCode q.1) q.1 =
          SizeKind.block q.2.1 q.2.2.1 q.2.2.2 := by decide
    exact hall p
  · exact hw
  · exact hh

/-- Witness for C10: a 260x130 `ASTC_SRGBA8_6x5` texture yields
`44 * 26 * 16 = 18304` bytes. -/
theorem c10_block_size_by_table_witness :
    calculateExpectedSize (mkTexture 189 260 130) = 18304 := by
  rw [c10_block_size_by_table (189, 6, 5, 16) (by decide) 260 130
    (by decide) (by decide)]
  decide

/-- Counterexample to claim C10 as stated: a 4x4 `EAC_RG11` texture
yields `1 * 1 * 8 = 8` bytes, not the claimed
`ceil(4/4) * ceil(4/4) * 16 = 16` — the dual-channel EAC formats get 8
bytes per block because their names contain no `"RGBA"`. -/
theorem c10_eac_rg11_eight_bytes_per_block :
    calculateExpectedSize (mkTexture 174 4 4) = 8 ∧ (8 : Nat) ≠ 16 := by
  refine ⟨by decide, by decide⟩
